import Mathlib

/-!
Verification of `ss_json_output.py` (SpyScraper JSON output module).

Shallow embedding: each Python function of the module becomes a Lean
definition parameterized over the external collaborators it calls
(the HTTP transport, the WHOIS client, the phone-number grammar, and the
random-choice draws), which are passed in as oracles.  Python strings are
Lean `String`s, Python exceptions are an explicit `Exc` type threaded via
`Except`, and the two regular expressions of the module are run by a
backtracking matcher (`reMatchList`) that follows CPython `re` semantics:
leftmost match, left alternative first, greedy quantifiers longest first.
-/

/-- Python-level exceptions that the embedded code can raise.  `systemExit`
models `SystemExit` as raised by `sys.exit(code)`; note that a bare
`except:` clause in Python catches `BaseException`, hence `SystemExit` too. -/
inductive Exc
  | systemExit (code : Nat)
  | requestError
  | indexError
  | typeError
  | attributeError
  | numberParseError
deriving DecidableEq, Repr

/-- An `<a>` element as seen through `link.get('href')`: only the optional
`href` attribute is observable. -/
structure Anchor where
  href : Option String
deriving DecidableEq, Repr

/-- A `<meta>` element as seen through the module: its `name` attribute, its
optional `content` attribute, and its text content (`element.text`). -/
structure MetaTag where
  name : String
  content : Option String
  text : String
deriving DecidableEq, Repr

/-- A successfully fetched page.  `text` is `response.text`; the parsed-HTML
views used by the module (`soup.find_all('a')`, `soup.find('meta', ...)`,
`soup.find_all('meta', ...)`) are modelled as the anchor and meta lists in
document order.  BeautifulSoup itself is a black-box collaborator. -/
structure PageDoc where
  text : String
  anchors : List Anchor
  metas : List MetaTag
deriving DecidableEq, Repr

/-- Observable outcome of `client.get(url, headers=headers)` followed by
`response.raise_for_status()`: a 2xx response with a body, a non-2xx status
(for which `raise_for_status` raises `httpx.HTTPStatusError`), or a
transport-level failure (`httpx.RequestError`: timeout, DNS, refused). -/
inductive FetchOutcome
  | success (doc : PageDoc)
  | statusError (code : Nat)
  | transportError
deriving DecidableEq, Repr

/-- The HTTP transport collaborator: what one GET of a URL with given headers
returns in this run. -/
def Fetcher := String → List (String × String) → FetchOutcome

/-- One element of a list-valued WHOIS date field, as relevant to the code's
`isinstance(date, datetime.datetime)` check: a `datetime` (carrying the
string that `date.replace(tzinfo=utc).isoformat()` produces for it), or any
other object (filtered out by the comprehension). -/
inductive WhoisItem
  | dt (iso : String)
  | other
deriving DecidableEq, Repr

/-- A WHOIS date field value as relevant to the code's checks: a Python
list, a `datetime` (again carrying its UTC ISO string), or any other value
(`None`, a string, ...) on which `.replace(tzinfo=datetime.timezone.utc)`
raises (`AttributeError` on `None`, `TypeError` on `str`, ...). -/
inductive WhoisDateVal
  | list (xs : List WhoisItem)
  | dt (iso : String)
  | bad
deriving DecidableEq, Repr

/-- The fields of a successful `whois.whois(domain)` result that the module
reads.  Per the specification the WHOIS client is a black box whose
name-server field is the authoritative name-server list. -/
structure WhoisInfo where
  creation_date : WhoisDateVal
  expiration_date : WhoisDateVal
  updated_date : WhoisDateVal
  name_servers : List String
deriving DecidableEq, Repr

/-- Outcome of `whois.whois(domain)` together with the attribute reads on its
result: either a usable record or some raised exception (lookup failure,
missing attribute, ...). -/
inductive WhoisOutcome
  | ok (info : WhoisInfo)
  | failure
deriving DecidableEq, Repr

/-- The WHOIS collaborator: what a lookup of a domain returns in this run. -/
def WhoisF := String → WhoisOutcome

/-- A parsed phone-number structure as produced by the `phonenumbers`
grammar — an opaque black-box value, passed through unmodified. -/
structure ParsedPhone where
  value : String
deriving DecidableEq, Repr

/-- The phone-number grammar collaborator: `phonenumbers.parse` on a
*string* input with `None` region, abstracted as success or failure. -/
def PhoneGrammar := String → Option ParsedPhone

/-- Embedding of `send_request` (lines 33-40).  `raise_for_status` raising
`httpx.HTTPStatusError` is caught and answered with `sys.exit(1)`, i.e. by
raising `SystemExit(1)`; an `httpx.RequestError` is not caught here and
propagates to the caller. -/
def send_request (fetch : Fetcher) (url : String) (headers : List (String × String)) :
    Except Exc PageDoc :=
  match fetch url headers with
  | .success doc => .ok doc
  | .statusError _ => .error (.systemExit 1)
  | .transportError => .error .requestError

/-- Embedding of `random.choice(useragents)`: on an empty list it raises
`IndexError`; on a non-empty list it returns the element at the randomly
drawn index, which we thread in as the oracle `i` (reduced mod length). -/
def pyChoice (l : List String) (i : Nat) : Except Exc String :=
  match l with
  | [] => .error .indexError
  | a :: l' => .ok ((a :: l').get ⟨i % (a :: l').length, Nat.mod_lt _ (Nat.succ_pos _)⟩)

/-- Worker for `pyReplace`: scan left to right; at each position, if the
non-empty pattern `p :: ps` starts here, emit the replacement and skip past
the occurrence, else keep the character.  `fuel` bounds the recursion so the
definition is structural (hence kernel-reducible); `fuel = length` suffices
since every step consumes at least one character. -/
def pyReplaceAux (p : Char) (ps rep : List Char) : Nat → List Char → List Char
  | 0, s => s
  | _ + 1, [] => []
  | fuel + 1, c :: rest =>
    if (p == c) && ps.isPrefixOf rest then
      rep ++ pyReplaceAux p ps rep fuel (rest.drop ps.length)
    else
      c :: pyReplaceAux p ps rep fuel rest

/-- Embedding of Python `s.replace(pat, rep)` for a non-empty `pat`:
replace every non-overlapping occurrence, scanning left to right.  (The
module only ever calls `replace` with the non-empty literals `"https://"`,
`"http://"` and `"www."`; on an empty pattern this model returns `s`
unchanged, a case the code never exercises.) -/
def pyReplace (s pat rep : String) : String :=
  match pat.toList with
  | [] => s
  | p :: ps => ⟨pyReplaceAux p ps rep.toList s.toList.length s.toList⟩

/-- Embedding of `url.replace("https://", "").replace("http://", "").replace("www.", "")`
(lines 122 and 163): naive substring replacement, not URL parsing.  Note
that only the literal substring `www.` (with the dot) is removed, and every
occurrence of it is removed, wherever it appears. -/
def derive_domain (url : String) : String :=
  pyReplace (pyReplace (pyReplace url "https://" "") "http://" "") "www." ""

/-- Python `\w` for the ASCII inputs at hand: letters, digits, underscore.
Word-boundary `\b` is defined from it. -/
def isWordChar (c : Char) : Bool := c.isAlphanum || c == '_'

/-- Is position `p` of `inp` at a word boundary (`\b`)?  True when exactly
one of the character before `p` and the character at `p` is a word
character (positions outside the input count as non-word). -/
def boundaryAt (inp : List Char) (p : Nat) : Bool :=
  let right := match inp.get? p with
    | some c => isWordChar c
    | none => false
  let left := match p with
    | 0 => false
    | q + 1 => match inp.get? q with
      | some c => isWordChar c
      | none => false
  left != right

/-- Abstract syntax of the two regular expressions used by the module.
Quantifiers only ever apply to single-character classes in those patterns,
so repetition is a primitive over a class (`repCls`), which keeps the
matcher structurally recursive. -/
inductive RE
  | eps
  | lit (c : Char)
  | cls (f : Char → Bool)
  | seq (a b : RE)
  | alt (a b : RE)
  | repCls (f : Char → Bool) (lo : Nat) (hi : Option Nat)
  | group (i : Nat) (a : RE)
  | wordB

/-- Length of the maximal run of characters satisfying `f` at the head of a
list. -/
def runLenAux (f : Char → Bool) : List Char → Nat
  | [] => 0
  | c :: cs => if f c then runLenAux f cs + 1 else 0

/-- Length of the maximal run of characters satisfying `f` starting at
position `p` of `inp`. -/
def runLen (inp : List Char) (f : Char → Bool) (p : Nat) : Nat :=
  runLenAux f (inp.drop p)

/-- The list `[top, top-1, ..., lo]` (empty when `top < lo`): the greedy
priority order for a counted repetition. -/
def countdown (top lo : Nat) : List Nat :=
  (List.range (top + 1 - lo)).map (fun j => top - j)

/-- The substring of `inp` from position `p` (inclusive) to `q`
(exclusive), as a `String`. -/
def strRange (inp : List Char) (p q : Nat) : String :=
  ⟨(inp.drop p).take (q - p)⟩

/-- Backtracking matcher in list-of-successes style, following CPython `re`
semantics.  `reMatchList inp re p g` returns, in priority order (leftmost
alternative first, greedy repetition longest first), every pair of an end
position and an updated capture list reachable by matching `re` at
position `p` of `inp` with captures-so-far `g`.  The head of the list is
the match CPython's engine commits to. -/
def reMatchList (inp : List Char) : RE → Nat → List (Nat × String) →
    List (Nat × List (Nat × String))
  | .eps, p, g => [(p, g)]
  | .lit c, p, g =>
    match inp.get? p with
    | some d => if d == c then [(p + 1, g)] else []
    | none => []
  | .cls f, p, g =>
    match inp.get? p with
    | some d => if f d then [(p + 1, g)] else []
    | none => []
  | .seq a b, p, g =>
    (reMatchList inp a p g).flatMap (fun r => reMatchList inp b r.1 r.2)
  | .alt a b, p, g => reMatchList inp a p g ++ reMatchList inp b p g
  | .repCls f lo hi, p, g =>
    let top := match hi with
      | some h => min h (runLen inp f p)
      | none => runLen inp f p
    (countdown top lo).map (fun k => (p + k, g))
  | .group i a, p, g =>
    (reMatchList inp a p g).map (fun r => (r.1, (i, strRange inp p r.1) :: r.2))
  | .wordB, p, g => if boundaryAt inp p then [(p, g)] else []

/-- Scanner behind `re.findall`: try the pattern at each position from `p`
on; record the committed match (start, end, captures) and resume after its
end (or one past its start if it were empty); on failure advance one
position.  `fuel ≥ inp.length + 2 - p` makes the recursion total and is
never exhausted. -/
def findallAux (inp : List Char) (re : RE) : Nat → Nat → List (Nat × Nat × List (Nat × String))
  | 0, _ => []
  | fuel + 1, p =>
    if p > inp.length then []
    else
      match (reMatchList inp re p []).head? with
      | some (q, g) => (p, q, g) :: findallAux inp re fuel (if p < q then q else p + 1)
      | none => findallAux inp re fuel (p + 1)

/-- `re.findall(pattern, s)` for a pattern with no capture groups: the list
of full match texts, leftmost first, non-overlapping, duplicates kept. -/
def pyFindallStrings (re : RE) (s : String) : List String :=
  (findallAux s.toList re (s.toList.length + 2) 0).map (fun r => strRange s.toList r.1 r.2.1)

/-- Value of capture group `i` in a committed match, with Python
`re.findall`'s convention that a group that did not participate reports the
empty string. -/
def groupGet (g : List (Nat × String)) (i : Nat) : String :=
  match g.find? (fun x => x.1 == i) with
  | some x => x.2
  | none => ""

/-- `re.findall(pattern, s)` for a pattern with exactly four capture
groups: the list of 4-tuples of group texts, leftmost first. -/
def pyFindallGroups4 (re : RE) (s : String) : List (String × String × String × String) :=
  (findallAux s.toList re (s.toList.length + 2) 0).map
    (fun r => (groupGet r.2.2 1, groupGet r.2.2 2, groupGet r.2.2 3, groupGet r.2.2 4))

/-- Character class `[A-Za-z0-9._%+-]` (email local part). -/
def emailLocalChar (c : Char) : Bool :=
  c.isAlphanum || c == '.' || c == '_' || c == '%' || c == '+' || c == '-'

/-- Character class `[A-Za-z0-9.-]` (email domain part). -/
def emailDomainChar (c : Char) : Bool := c.isAlphanum || c == '.' || c == '-'

/-- Character class `[A-Z|a-z]` (email TLD part).  The `|` inside a
character class is a literal pipe character, so the class is the ASCII
letters plus `|`. -/
def emailTldChar (c : Char) : Bool := c.isAlpha || c == '|'

/-- The email pattern of line 50:
`\b[A-Za-z0-9._%+-]+@[A-Za-z0-9.-]+\.[A-Z|a-z]{2,}\b`. -/
def email_regex : RE :=
  .seq .wordB
    (.seq (.repCls emailLocalChar 1 none)
      (.seq (.lit '@')
        (.seq (.repCls emailDomainChar 1 none)
          (.seq (.lit '.')
            (.seq (.repCls emailTldChar 2 none) .wordB)))))

/-- Greedy `?`: prefer matching `a`, fall back to the empty match. -/
def optRE (a : RE) : RE := .alt a .eps

/-- Character class `[-. (]`. -/
def phoneSep1 (c : Char) : Bool := c == '-' || c == '.' || c == ' ' || c == '('

/-- Character class `[-. )]`. -/
def phoneSep2 (c : Char) : Bool := c == '-' || c == '.' || c == ' ' || c == ')'

/-- Character class `[-. ]`. -/
def phoneSep3 (c : Char) : Bool := c == '-' || c == '.' || c == ' '

/-- Python `\d` (ASCII digits for the inputs at hand). -/
def digitChar (c : Char) : Bool := c.isDigit

/-- The phone pattern of line 101:
`\b(?:\+?(\d{1,3}))?[-. (]*(\d{3})[-. )]*(\d{3})[-. ]*(\d{4})\b`.
It has four capture groups, so `re.findall` returns 4-tuples. -/
def phone_regex : RE :=
  .seq .wordB
    (.seq (optRE (.seq (optRE (.lit '+')) (.group 1 (.repCls digitChar 1 (some 3)))))
      (.seq (.repCls phoneSep1 0 none)
        (.seq (.group 2 (.repCls digitChar 3 (some 3)))
          (.seq (.repCls phoneSep2 0 none)
            (.seq (.group 3 (.repCls digitChar 3 (some 3)))
              (.seq (.repCls phoneSep3 0 none)
                (.seq (.group 4 (.repCls digitChar 4 (some 4))) .wordB)))))))

/-- Embedding of `extract_emails` (lines 43-56).  The whole body sits in a
`try`/bare-`except` that returns `[]` on *any* raised exception —
including the `SystemExit` that `send_request` raises for a non-2xx status,
since a bare `except:` catches `BaseException`.  `i` is the
`random.choice` draw for this call. -/
def extract_emails (fetch : Fetcher) (url : String) (useragents : List String) (i : Nat) :
    List String :=
  match pyChoice useragents i with
  | .error _ => []
  | .ok ua =>
    match send_request fetch url [("User-Agent", ua)] with
    | .ok response => pyFindallStrings email_regex response.text
    | .error _ => []

/-- Embedding of `extract_href` (lines 59-72): every anchor's `href`
attribute in document order, `none` when absent; `[]` on any raised
exception (same bare `except:` as the other extractors). -/
def extract_href (fetch : Fetcher) (url : String) (useragents : List String) (i : Nat) :
    List (Option String) :=
  match pyChoice useragents i with
  | .error _ => []
  | .ok ua =>
    match send_request fetch url [("User-Agent", ua)] with
    | .ok response => response.anchors.map (fun link => link.href)
    | .error _ => []

/-- Embedding of `author_infos` (lines 75-91): the first
`<meta name="author">` tag's `content` attribute.  When the tag exists but
has no `content` attribute, `author_element['content']` raises `KeyError`,
which the bare `except:` turns into `None` as well. -/
def author_infos (fetch : Fetcher) (url : String) (useragents : List String) (i : Nat) :
    Option String :=
  match pyChoice useragents i with
  | .error _ => none
  | .ok ua =>
    match send_request fetch url [("User-Agent", ua)] with
    | .ok response =>
      match response.metas.find? (fun m => m.name == "author") with
      | some author_element => author_element.content
      | none => none
    | .error _ => none

/-- CPython set iteration order is unspecified; `list(set(xs))` is modelled
as first-occurrence deduplication.  No claim depends on the order (the
specification itself flags it as non-deterministic). -/
def pySetDedup (l : List (String × String × String × String)) :
    List (String × String × String × String) :=
  l.foldl (fun acc x => if x ∈ acc then acc else acc ++ [x]) []

/-- Either a Python `str` or the 4-tuple of group texts that
`re.findall` yields for a pattern with four capture groups. -/
inductive PyStrOrTup
  | s (v : String)
  | tup (v : String × String × String × String)
deriving DecidableEq, Repr

/-- `phonenumbers.parse(x, None)` as observable by the module.  On a
*tuple* argument it raises before reaching the grammar: `parse` treats its
argument as a string (string methods, compiled-regex searches), and a
tuple supports neither, so a `TypeError`/`AttributeError` is raised —
modelled as the single error case `typeError`, which is all the module can
observe through its bare `except`.  On a string argument it defers to the
black-box grammar. -/
def phonenumbersParse (grammar : PhoneGrammar) : PyStrOrTup → Except Exc ParsedPhone
  | .s v =>
    match grammar v with
    | some parsed => .ok parsed
    | none => .error .numberParseError
  | .tup _ => .error .typeError

/-- Embedding of `extract_phone` (lines 94-117).  `re.findall` on the
four-group pattern yields 4-tuples; `list(set(...))` deduplicates them; each
tuple is then fed to `phonenumbers.parse`, whose failures are silently
swallowed by the inner `try`/`except: pass`. -/
def extract_phone (fetch : Fetcher) (grammar : PhoneGrammar) (url : String)
    (useragents : List String) (i : Nat) : List ParsedPhone :=
  match pyChoice useragents i with
  | .error _ => []
  | .ok ua =>
    match send_request fetch url [("User-Agent", ua)] with
    | .ok response =>
      let phone_numbers := pyFindallGroups4 phone_regex response.text
      let unique_phone_numbers := pySetDedup phone_numbers
      unique_phone_numbers.filterMap
        (fun t => (phonenumbersParse grammar (.tup t)).toOption)
    | .error _ => []

/-- `date.replace(tzinfo=datetime.timezone.utc).isoformat()` on a
`datetime`: the model carries the resulting string inside the value. -/
def toUtcIso (iso : String) : String := iso

/-- A normalized date field as placed into the result dictionary: a single
ISO string or a list of ISO strings. -/
inductive DateOut
  | single (s : String)
  | list (xs : List String)
deriving DecidableEq, Repr

/-- One date field of `creation_update` (lines 130-149): a Python list is
filtered to its `datetime` elements, each normalized; a bare `datetime` is
normalized directly; anything else (e.g. `None`) raises when `.replace`
is called on it. -/
def normalizeDate : WhoisDateVal → Except Exc DateOut
  | .list xs =>
    .ok (.list (xs.filterMap (fun x =>
      match x with
      | .dt d => some (toUtcIso d)
      | .other => none)))
  | .dt d => .ok (.single (toUtcIso d))
  | .bad => .error .attributeError

/-- Embedding of `creation_update` (lines 120-158): derive the domain,
look it up, normalize the three date fields.  Any raised exception —
lookup failure or a `.replace` call on a non-`datetime` field — is caught
by the bare `except:` and yields the empty dict, modelled as `[]`. -/
def creation_update (whoisF : WhoisF) (url : String) : List (String × DateOut) :=
  match whoisF (derive_domain url) with
  | .failure => []
  | .ok whois_info =>
    match normalizeDate whois_info.creation_date,
          normalizeDate whois_info.expiration_date,
          normalizeDate whois_info.updated_date with
    | .ok c, .ok e, .ok u =>
      [("creation_date", c), ("expiration_date", e), ("updated_date", u)]
    | _, _, _ => []

/-- Embedding of `servers_infos` (lines 161-172): derive the domain, look
it up, and return `whois_info.name_servers` verbatim; any raised exception
yields `[]`. -/
def servers_infos (whoisF : WhoisF) (url : String) : List String :=
  match whoisF (derive_domain url) with
  | .failure => []
  | .ok whois_info => whois_info.name_servers

/-- Embedding of `extract_location` (lines 175-194): the stripped text
content of every `<meta name="geo.position">` tag in document order; `[]`
on any raised exception.  Python `str.strip()` is modelled by
`String.trim` (both strip surrounding whitespace). -/
def extract_location (fetch : Fetcher) (url : String) (useragents : List String) (i : Nat) :
    List String :=
  match pyChoice useragents i with
  | .error _ => []
  | .ok ua =>
    match send_request fetch url [("User-Agent", ua)] with
    | .ok response =>
      (response.metas.filter (fun m => m.name == "geo.position")).map
        (fun element => element.text.trim)
    | .error _ => []

/-- Embedding of Python `s.split('\n')` on the character list: splitting on
every newline, keeping empty pieces, so a trailing newline contributes a
final empty piece and the empty string splits to `[[]]`. -/
def pySplitNl : List Char → List (List Char)
  | [] => [[]]
  | c :: rest =>
    if c = '\n' then [] :: pySplitNl rest
    else
      match pySplitNl rest with
      | [] => [[c]]
      | l :: ls => (c :: l) :: ls

/-- Embedding of `useragents_file.read().split('\n')` (line 220): the raw
file content split on newlines with no filtering and no non-emptiness
check. -/
def pyReadSplit (content : String) : List String :=
  (pySplitNl content.toList).map (fun cs => ⟨cs⟩)

/-- Embedding of the user-agent resolution of lines 217-222: the literal
`"random"` selects the sidecar file's lines, any other value is used as a
one-element candidate list. -/
def useragentsFor (uaArg : String) (fileContent : String) : List String :=
  if uaArg == "random" then pyReadSplit fileContent else [uaArg]

/-- JSON values as produced by serializing the result dictionary: strings,
null, arrays, objects, and opaque parsed-phone structures. -/
inductive Json
  | nullJ
  | str (s : String)
  | arr (xs : List Json)
  | obj (kvs : List (String × Json))
  | phone (p : ParsedPhone)

/-- Serialize an optional string: `None` becomes JSON null. -/
def optStrJson : Option String → Json
  | some s => .str s
  | none => .nullJ

/-- Serialize a normalized date field. -/
def dateOutJson : DateOut → Json
  | .single s => .str s
  | .list xs => .arr (xs.map .str)

/-- One `random.choice` draw per extractor call of `maincore` (the module
re-rolls the user-agent for every extractor). -/
structure ChoiceIdx where
  emails : Nat
  links : Nat
  authors : Nat
  phones : Nat
  locations : Nat
deriving DecidableEq, Repr

/-- Embedding of the `result` dictionary built by `maincore`
(lines 224-241): the five page extractors and the two registry lookups,
merged into the fixed-shape record in the fixed key order. -/
def maincoreRecord (fetch : Fetcher) (whoisF : WhoisF) (grammar : PhoneGrammar)
    (target_url uaArg fileContent : String) (idx : ChoiceIdx) : List (String × Json) :=
  let useragents := useragentsFor uaArg fileContent
  let emails := extract_emails fetch target_url useragents idx.emails
  let links := extract_href fetch target_url useragents idx.links
  let authors := author_infos fetch target_url useragents idx.authors
  let phones := extract_phone fetch grammar target_url useragents idx.phones
  let creation_update_info := creation_update whoisF target_url
  let servers := servers_infos whoisF target_url
  let locations := extract_location fetch target_url useragents idx.locations
  [("target_url", .str target_url),
   ("emails", .arr (emails.map .str)),
   ("links", .arr (links.map optStrJson)),
   ("authors", optStrJson authors),
   ("phones", .arr (phones.map .phone)),
   ("creation_update_info", .obj (creation_update_info.map (fun kv => (kv.1, dateOutJson kv.2)))),
   ("servers", .arr (servers.map .str)),
   ("locations", .arr (locations.map .str))]

/-- Outcome of one run of `maincore`: early process termination with an
exit code, or normal completion with the serialized record. -/
inductive RunResult
  | exited (code : Nat)
  | completed (record : List (String × Json))

/-- Embedding of `maincore` (lines 197-247) after argument parsing and file
reading.  Every exception raised below it — including the `SystemExit`
from `sys.exit(1)` in `send_request` — is caught by the extractors' bare
`except:` clauses (a bare `except:` catches `BaseException`), so the run
always reaches the serialization step and completes; `RunResult.exited`
exists in the type to state claims about early termination. -/
def maincore (fetch : Fetcher) (whoisF : WhoisF) (grammar : PhoneGrammar)
    (target_url uaArg fileContent : String) (idx : ChoiceIdx) : RunResult :=
  .completed (maincoreRecord fetch whoisF grammar target_url uaArg fileContent idx)

/-! ### Concrete collaborators used in closed theorems and witnesses -/

/-- A transport that answers every request with an HTTP 404 status. -/
def env404 : Fetcher := fun _ _ => FetchOutcome.statusError 404

/-- A transport that fails every request with a transport-level error
(timeout, DNS failure, ...). -/
def envTimeout : Fetcher := fun _ _ => FetchOutcome.transportError

/-- A WHOIS collaborator whose every lookup fails. -/
def whoisFail : WhoisF := fun _ => WhoisOutcome.failure

/-- A phone grammar that accepts nothing (never consulted on the paths the
code actually takes). -/
def noGrammar : PhoneGrammar := fun _ => none

/-- A transport serving a page whose text contains the same phone number
twice. -/
def envPhonePage : Fetcher := fun _ _ =>
  FetchOutcome.success
    { text := "call 555-123-4567 or 555-123-4567", anchors := [], metas := [] }

/-- A transport serving a page whose text contains one well-formed email
address and one malformed one. -/
def envMailPage : Fetcher := fun _ _ =>
  FetchOutcome.success
    { text := "contact@example.com and BAD@@x", anchors := [], metas := [] }

/-- A transport serving a page with three anchors, the middle one lacking
an `href` attribute. -/
def envLinkPage : Fetcher := fun _ _ =>
  FetchOutcome.success
    { text := "",
      anchors := [{ href := some "/about" }, { href := none }, { href := some "https://e.com" }],
      metas := [] }

/-- A WHOIS collaborator answering every lookup with full date data and two
name servers. -/
def whoisRich : WhoisF := fun _ =>
  WhoisOutcome.ok
    { creation_date := .dt "2020-01-01T00:00:00+00:00",
      expiration_date := .list [.dt "2030-01-01T00:00:00+00:00", .other],
      updated_date := .dt "2024-06-01T00:00:00+00:00",
      name_servers := ["ns1.example.com", "ns2.example.com"] }

/-- A WHOIS collaborator whose result holds two valid timestamps but an
unusable (`None`-like) updated date. -/
def whoisPartialBad : WhoisF := fun _ =>
  WhoisOutcome.ok
    { creation_date := .dt "2020-01-01T00:00:00+00:00",
      expiration_date := .dt "2030-01-01T00:00:00+00:00",
      updated_date := .bad,
      name_servers := [] }

/-! ### Helper lemmas shared by the claim theorems -/

/-- When no fetch of `url` returns a 2xx page, `send_request` raises: either
`SystemExit(1)` (non-2xx status) or `httpx.RequestError` (transport). -/
theorem send_request_error (fetch : Fetcher) (url : String) (h : List (String × String))
    (hne : ∀ hh d, fetch url hh ≠ FetchOutcome.success d) :
    ∃ e, send_request fetch url h = .error e := by
  unfold send_request
  cases hfu : fetch url h with
  | success d => exact absurd hfu (hne _ d)
  | statusError c => exact ⟨_, rfl⟩
  | transportError => exact ⟨_, rfl⟩

/-- When no fetch of `url` returns a 2xx page, `extract_emails` answers the
empty list (the bare `except:` swallows the raised exception). -/
theorem extract_emails_of_failure (fetch : Fetcher) (url : String)
    (uas : List String) (i : Nat)
    (hne : ∀ h d, fetch url h ≠ FetchOutcome.success d) :
    extract_emails fetch url uas i = [] := by
  unfold extract_emails
  cases hc : pyChoice uas i with
  | error e => rfl
  | ok ua =>
    obtain ⟨e, he⟩ := send_request_error fetch url [("User-Agent", ua)] hne
    simp only [he]

/-- Failure case of `extract_href`. -/
theorem extract_href_of_failure (fetch : Fetcher) (url : String)
    (uas : List String) (i : Nat)
    (hne : ∀ h d, fetch url h ≠ FetchOutcome.success d) :
    extract_href fetch url uas i = [] := by
  unfold extract_href
  cases hc : pyChoice uas i with
  | error e => rfl
  | ok ua =>
    obtain ⟨e, he⟩ := send_request_error fetch url [("User-Agent", ua)] hne
    simp only [he]

/-- Failure case of `author_infos`. -/
theorem author_infos_of_failure (fetch : Fetcher) (url : String)
    (uas : List String) (i : Nat)
    (hne : ∀ h d, fetch url h ≠ FetchOutcome.success d) :
    author_infos fetch url uas i = none := by
  unfold author_infos
  cases hc : pyChoice uas i with
  | error e => rfl
  | ok ua =>
    obtain ⟨e, he⟩ := send_request_error fetch url [("User-Agent", ua)] hne
    simp only [he]

/-- Failure case of `extract_phone`. -/
theorem extract_phone_of_failure (fetch : Fetcher) (grammar : PhoneGrammar)
    (url : String) (uas : List String) (i : Nat)
    (hne : ∀ h d, fetch url h ≠ FetchOutcome.success d) :
    extract_phone fetch grammar url uas i = [] := by
  unfold extract_phone
  cases hc : pyChoice uas i with
  | error e => rfl
  | ok ua =>
    obtain ⟨e, he⟩ := send_request_error fetch url [("User-Agent", ua)] hne
    simp only [he]

/-- Failure case of `extract_location`. -/
theorem extract_location_of_failure (fetch : Fetcher) (url : String)
    (uas : List String) (i : Nat)
    (hne : ∀ h d, fetch url h ≠ FetchOutcome.success d) :
    extract_location fetch url uas i = [] := by
  unfold extract_location
  cases hc : pyChoice uas i with
  | error e => rfl
  | ok ua =>
    obtain ⟨e, he⟩ := send_request_error fetch url [("User-Agent", ua)] hne
    simp only [he]

/-- Success case of `extract_emails`: with a drawn user agent and a 2xx
page, the result is `re.findall` of the email pattern over the page text. -/
theorem extract_emails_of_success (fetch : Fetcher) (url : String)
    (uas : List String) (i : Nat) (ua : String) (doc : PageDoc)
    (hc : pyChoice uas i = .ok ua)
    (hfu : fetch url [("User-Agent", ua)] = .success doc) :
    extract_emails fetch url uas i = pyFindallStrings email_regex doc.text := by
  unfold extract_emails send_request
  simp only [hc, hfu]

/-- Success case of `extract_href`: the `href` of every anchor in document
order, `none` when the attribute is absent. -/
theorem extract_href_of_success (fetch : Fetcher) (url : String)
    (uas : List String) (i : Nat) (ua : String) (doc : PageDoc)
    (hc : pyChoice uas i = .ok ua)
    (hfu : fetch url [("User-Agent", ua)] = .success doc) :
    extract_href fetch url uas i = doc.anchors.map (fun link => link.href) := by
  unfold extract_href send_request
  simp only [hc, hfu]

/-- `random.choice` draw of a known index below the candidate count. -/
theorem pyChoice_of_get (l : List String) (j : Nat) (hj : j < l.length) :
    pyChoice l j = .ok (l.get ⟨j, hj⟩) := by
  cases l with
  | nil => exact absurd hj (by simp)
  | cons a l' =>
    have hj' : j % (l'.length + 1) = j := Nat.mod_eq_of_lt (by simpa using hj)
    simp [pyChoice, hj']

/-! ### Claim theorems -/

/-- C1: the claim says a non-2xx HTTP status makes the process hard-exit
with code 1, abandoning extraction and producing no JSON.  In the code,
`send_request` does raise `SystemExit(1)` (via `sys.exit(1)`), but every
caller wraps the call in a bare `except:` — which in Python catches
`BaseException`, hence `SystemExit` — so the exception is swallowed, the
extractor degrades to its empty value, and the run completes normally with
a full JSON record.  Concretely, with every fetch answering 404: the
raised exception is `SystemExit 1`, yet `extract_emails` returns `[]` and
`maincore` completes with the all-empty record instead of exiting. -/
theorem c1_status_error_run_completes :
    send_request env404 "https://example.com" [("User-Agent", "ua")] =
      .error (.systemExit 1)
    ∧ extract_emails env404 "https://example.com" ["ua"] 0 = []
    ∧ maincore env404 whoisFail noGrammar "https://example.com" "ua" "" ⟨0, 0, 0, 0, 0⟩ =
        .completed
          [("target_url", .str "https://example.com"),
           ("emails", .arr []),
           ("links", .arr []),
           ("authors", .nullJ),
           ("phones", .arr []),
           ("creation_update_info", .obj []),
           ("servers", .arr []),
           ("locations", .arr [])] :=
  ⟨rfl, rfl, rfl⟩

/-- C2: the serialized record always carries exactly the eight top-level
keys in the fixed order, whatever the collaborators do; and when every
fetch fails and the WHOIS lookup fails, each extractor contributes its
type's empty value (empty array, null, empty object). -/
theorem c2_record_has_exactly_eight_keys (fetch : Fetcher) (whoisF : WhoisF)
    (grammar : PhoneGrammar) (url uaArg fc : String) (idx : ChoiceIdx) :
    (maincoreRecord fetch whoisF grammar url uaArg fc idx).map Prod.fst =
      ["target_url", "emails", "links", "authors", "phones",
       "creation_update_info", "servers", "locations"]
    ∧ ((∀ h d, fetch url h ≠ FetchOutcome.success d) →
        whoisF (derive_domain url) = .failure →
        maincoreRecord fetch whoisF grammar url uaArg fc idx =
          [("target_url", .str url),
           ("emails", .arr []),
           ("links", .arr []),
           ("authors", .nullJ),
           ("phones", .arr []),
           ("creation_update_info", .obj []),
           ("servers", .arr []),
           ("locations", .arr [])]) := by
  constructor
  · rfl
  · intro hne hw
    simp only [maincoreRecord]
    rw [extract_emails_of_failure fetch url _ _ hne,
        extract_href_of_failure fetch url _ _ hne,
        author_infos_of_failure fetch url _ _ hne,
        extract_phone_of_failure fetch grammar url _ _ hne,
        extract_location_of_failure fetch url _ _ hne]
    unfold creation_update servers_infos
    rw [hw]
    rfl

/-- Closed instance of C2 at concrete collaborators, discharging its
hypotheses: with 404 everywhere and a failing WHOIS the record keeps all
eight keys with empty values. -/
theorem c2_record_has_exactly_eight_keys_witness :
    (maincoreRecord env404 whoisFail noGrammar "https://example.com" "ua" ""
        ⟨0, 0, 0, 0, 0⟩).map Prod.fst =
      ["target_url", "emails", "links", "authors", "phones",
       "creation_update_info", "servers", "locations"]
    ∧ maincoreRecord env404 whoisFail noGrammar "https://example.com" "ua" ""
        ⟨0, 0, 0, 0, 0⟩ =
      [("target_url", .str "https://example.com"),
       ("emails", .arr []),
       ("links", .arr []),
       ("authors", .nullJ),
       ("phones", .arr []),
       ("creation_update_info", .obj []),
       ("servers", .arr []),
       ("locations", .arr [])] := by
  have h := c2_record_has_exactly_eight_keys env404 whoisFail noGrammar
    "https://example.com" "ua" "" ⟨0, 0, 0, 0, 0⟩
  exact ⟨h.1, h.2 (fun hh d hc => FetchOutcome.noConfusion hc) rfl⟩

/-- C3: the claim says the phone extractor deduplicates the two identical
raw matches of `"call 555-123-4567 or 555-123-4567"` and returns exactly
one parsed structure.  In the code, `re.findall` on the four-group pattern
returns group *tuples*; the `set` does deduplicate them to one tuple, but
`phonenumbers.parse` is then called on that tuple and raises `TypeError`,
which the inner `except: pass` silently drops — so the extractor returns
`[]`, not one parsed structure, and indeed never returns a non-empty list
whatever the grammar. -/
theorem c3_phone_extractor_parses_nothing :
    pyFindallGroups4 phone_regex "call 555-123-4567 or 555-123-4567" =
      [("", "555", "123", "4567"), ("", "555", "123", "4567")]
    ∧ pySetDedup (pyFindallGroups4 phone_regex "call 555-123-4567 or 555-123-4567") =
      [("", "555", "123", "4567")]
    ∧ (∀ (grammar : PhoneGrammar) (t : String × String × String × String),
        phonenumbersParse grammar (.tup t) = .error .typeError)
    ∧ (∀ (grammar : PhoneGrammar),
        extract_phone envPhonePage grammar "https://example.com" ["ua"] 0 = []) :=
  ⟨by decide, by decide, fun _ _ => rfl, fun _ => rfl⟩

/-- C4 counterexample: the claim asserts the domain derivation maps
`"https://wwwexample.com"` to `"example.com"`; in fact the string contains
no occurrence of the literal `"www."`, so nothing is stripped and the
derived domain is `"wwwexample.com"`. -/
theorem c4_counterexample :
    derive_domain "https://wwwexample.com" = "wwwexample.com"
    ∧ derive_domain "https://wwwexample.com" ≠ "example.com" := by
  constructor
  · rfl
  · intro h
    exact absurd h (by decide)

/-- C4 (amended): the derivation maps `"https://www.example.com"` to
`"example.com"`, leaves `"https://wwwexample.com"` (no dot after `www`)
unchanged as `"wwwexample.com"`, and — naive prefix stripping being plain
substring replacement — also strips `"www."` mid-string. -/
theorem c4_domain_derivation :
    derive_domain "https://www.example.com" = "example.com"
    ∧ derive_domain "https://wwwexample.com" = "wwwexample.com"
    ∧ derive_domain "https://a.www.b.com" = "a.b.com" :=
  ⟨rfl, rfl, rfl⟩

/-- C5: when every fetch of the target fails at transport level, the five
HTTP-based fields degrade to their empty values while the two registry
fields are exactly the WHOIS-derived values — `creation_update` and
`servers_infos` take only the WHOIS collaborator, so the page fetch cannot
influence them. -/
theorem c5_transport_error_degrades_http_extractors
    (fetch : Fetcher) (whoisF : WhoisF) (grammar : PhoneGrammar)
    (url uaArg fc : String) (idx : ChoiceIdx)
    (hf : ∀ h, fetch url h = FetchOutcome.transportError) :
    maincoreRecord fetch whoisF grammar url uaArg fc idx =
      [("target_url", .str url),
       ("emails", .arr []),
       ("links", .arr []),
       ("authors", .nullJ),
       ("phones", .arr []),
       ("creation_update_info",
         .obj ((creation_update whoisF url).map (fun kv => (kv.1, dateOutJson kv.2)))),
       ("servers", .arr ((servers_infos whoisF url).map .str)),
       ("locations", .arr [])] := by
  have hne : ∀ h d, fetch url h ≠ FetchOutcome.success d := by
    intro h d hc
    rw [hf h] at hc
    exact FetchOutcome.noConfusion hc
  simp only [maincoreRecord]
  rw [extract_emails_of_failure fetch url _ _ hne,
      extract_href_of_failure fetch url _ _ hne,
      author_infos_of_failure fetch url _ _ hne,
      extract_phone_of_failure fetch grammar url _ _ hne,
      extract_location_of_failure fetch url _ _ hne]
  rfl

/-- Closed instance of C5: a timing-out transport with a rich WHOIS answer
leaves the page fields empty while the registry fields are populated. -/
theorem c5_transport_error_degrades_http_extractors_witness :
    (∀ h, envTimeout "https://example.com" h = FetchOutcome.transportError)
    ∧ maincoreRecord envTimeout whoisRich noGrammar "https://example.com" "ua" ""
        ⟨0, 0, 0, 0, 0⟩ =
      [("target_url", .str "https://example.com"),
       ("emails", .arr []),
       ("links", .arr []),
       ("authors", .nullJ),
       ("phones", .arr []),
       ("creation_update_info",
         .obj [("creation_date", .str "2020-01-01T00:00:00+00:00"),
               ("expiration_date", .arr [.str "2030-01-01T00:00:00+00:00"]),
               ("updated_date", .str "2024-06-01T00:00:00+00:00")]),
       ("servers", .arr [.str "ns1.example.com", .str "ns2.example.com"]),
       ("locations", .arr [])] := by
  refine ⟨fun _ => rfl, ?_⟩
  have h := c5_transport_error_degrades_http_extractors envTimeout whoisRich noGrammar
    "https://example.com" "ua" "" ⟨0, 0, 0, 0, 0⟩ (fun _ => rfl)
  rw [h]
  rfl

/-- C6: on a 2xx page the email extractor returns exactly `re.findall` of
the fixed email pattern over the raw text — non-overlapping, document
order, duplicates kept; on any failure it returns `[]`; and on a document
with `contact@example.com` and `BAD@@x` the matches are exactly
`["contact@example.com"]`. -/
theorem c6_email_extractor (fetch : Fetcher) (url : String) (uas : List String) (i : Nat) :
    (∀ ua doc, pyChoice uas i = .ok ua →
       fetch url [("User-Agent", ua)] = .success doc →
       extract_emails fetch url uas i = pyFindallStrings email_regex doc.text)
    ∧ ((∀ h d, fetch url h ≠ FetchOutcome.success d) →
        extract_emails fetch url uas i = [])
    ∧ extract_emails fetch url [] i = []
    ∧ pyFindallStrings email_regex "contact@example.com and BAD@@x" =
        ["contact@example.com"]
    ∧ pyFindallStrings email_regex "a@b.cc a@b.cc" = ["a@b.cc", "a@b.cc"] := by
  refine ⟨?_, ?_, rfl, by decide, by decide⟩
  · intro ua doc hc hfu
    exact extract_emails_of_success fetch url uas i ua doc hc hfu
  · intro hne
    exact extract_emails_of_failure fetch url uas i hne

/-- Closed instance of C6 on the served example page. -/
theorem c6_email_extractor_witness :
    pyChoice ["ua"] 0 = .ok "ua"
    ∧ envMailPage "https://example.com" [("User-Agent", "ua")] =
        .success { text := "contact@example.com and BAD@@x", anchors := [], metas := [] }
    ∧ extract_emails envMailPage "https://example.com" ["ua"] 0 =
        ["contact@example.com"] := by
  refine ⟨rfl, rfl, ?_⟩
  have h := (c6_email_extractor envMailPage "https://example.com" ["ua"] 0).1 "ua"
    { text := "contact@example.com and BAD@@x", anchors := [], metas := [] } rfl rfl
  rw [h]
  decide

/-- C7: the server lookup passes `whois_info.name_servers` through verbatim
on success and returns `[]` on lookup failure, and the serialized
`servers` field of the record is always a JSON array of strings —
never null — whatever the other collaborators do. -/
theorem c7_servers_verbatim_or_empty (whoisF : WhoisF) (url : String) :
    (whoisF (derive_domain url) = .failure → servers_infos whoisF url = [])
    ∧ (∀ info, whoisF (derive_domain url) = .ok info →
        servers_infos whoisF url = info.name_servers)
    ∧ (∀ (fetch : Fetcher) (grammar : PhoneGrammar) (uaArg fc : String) (idx : ChoiceIdx),
        (maincoreRecord fetch whoisF grammar url uaArg fc idx).lookup "servers" =
          some (.arr ((servers_infos whoisF url).map .str))) := by
  refine ⟨?_, ?_, ?_⟩
  · intro hw
    unfold servers_infos
    rw [hw]
  · intro info hw
    unfold servers_infos
    rw [hw]
  · intro fetch grammar uaArg fc idx
    rfl

/-- Closed instance of C7: verbatim name servers on success, empty list on
failure. -/
theorem c7_servers_verbatim_or_empty_witness :
    servers_infos whoisRich "https://example.com" = ["ns1.example.com", "ns2.example.com"]
    ∧ servers_infos whoisFail "https://example.com" = [] := by
  constructor
  · exact (c7_servers_verbatim_or_empty whoisRich "https://example.com").2.1 _ rfl
  · exact (c7_servers_verbatim_or_empty whoisFail "https://example.com").1 rfl

/-- C8: on a 2xx page the link extractor returns every anchor's `href`
value in document order — `none` for anchors without the attribute — and
`[]` on any failure. -/
theorem c8_link_extractor (fetch : Fetcher) (url : String) (uas : List String) (i : Nat) :
    (∀ ua doc, pyChoice uas i = .ok ua →
       fetch url [("User-Agent", ua)] = .success doc →
       extract_href fetch url uas i = doc.anchors.map (fun link => link.href))
    ∧ ((∀ h d, fetch url h ≠ FetchOutcome.success d) →
        extract_href fetch url uas i = [])
    ∧ extract_href fetch url [] i = [] := by
  refine ⟨?_, ?_, rfl⟩
  · intro ua doc hc hfu
    exact extract_href_of_success fetch url uas i ua doc hc hfu
  · intro hne
    exact extract_href_of_failure fetch url uas i hne

/-- Closed instance of C8: three anchors, the middle one without `href`,
yield the three values in order with a null in the middle. -/
theorem c8_link_extractor_witness :
    extract_href envLinkPage "https://example.com" ["ua"] 0 =
      [some "/about", none, some "https://e.com"] := by
  have h := (c8_link_extractor envLinkPage "https://example.com" ["ua"] 0).1 "ua"
    { text := "",
      anchors := [{ href := some "/about" }, { href := none }, { href := some "https://e.com" }],
      metas := [] } rfl rfl
  rw [h]
  rfl

/-- C9: the registry date lookup is all-or-nothing — the result either has
exactly the three keys `creation_date`, `expiration_date`, `updated_date`
or is the empty mapping; and whenever any one of the three WHOIS date
fields is neither a list nor a `datetime`, the whole result degrades to
the empty mapping even if the other two are valid. -/
theorem c9_dates_all_or_nothing (whoisF : WhoisF) (url : String) :
    ((creation_update whoisF url).map Prod.fst =
        ["creation_date", "expiration_date", "updated_date"]
      ∨ creation_update whoisF url = [])
    ∧ (∀ info, whoisF (derive_domain url) = .ok info →
        (info.creation_date = .bad ∨ info.expiration_date = .bad ∨
         info.updated_date = .bad) →
        creation_update whoisF url = []) := by
  constructor
  · unfold creation_update
    cases hw : whoisF (derive_domain url) with
    | failure => exact Or.inr rfl
    | ok info =>
      rcases info with ⟨cd, ed, ud, ns⟩
      cases cd <;> cases ed <;> cases ud <;>
        first
        | exact Or.inl rfl
        | exact Or.inr rfl
  · intro info hw hbad
    unfold creation_update
    simp only [hw]
    rcases hbad with h | h | h <;> rw [h]
    · cases hc : normalizeDate info.expiration_date <;>
        cases hu : normalizeDate info.updated_date <;> rfl
    · cases hc : normalizeDate info.creation_date <;>
        cases hu : normalizeDate info.updated_date <;> rfl
    · cases hc : normalizeDate info.creation_date <;>
        cases he : normalizeDate info.expiration_date <;> rfl

/-- Closed instance of C9: two valid timestamps and one `None`-like
updated date yield the empty mapping. -/
theorem c9_dates_all_or_nothing_witness :
    whoisPartialBad (derive_domain "https://example.com") =
      .ok { creation_date := .dt "2020-01-01T00:00:00+00:00",
            expiration_date := .dt "2030-01-01T00:00:00+00:00",
            updated_date := .bad,
            name_servers := [] }
    ∧ creation_update whoisPartialBad "https://example.com" = [] :=
  ⟨rfl,
   (c9_dates_all_or_nothing whoisPartialBad "https://example.com").2 _ rfl
     (Or.inr (Or.inr rfl))⟩

/-- What the email extractor computes from a given fetch outcome — used to
state that a particular header list is the one actually sent. -/
def emailsOf : FetchOutcome → List String
  | .success doc => pyFindallStrings email_regex doc.text
  | _ => []

/-- `pySplitNl` never returns the empty list of pieces. -/
theorem pySplitNl_ne_nil (cs : List Char) : pySplitNl cs ≠ [] := by
  cases cs with
  | nil => exact fun h => List.noConfusion h
  | cons c rest =>
    unfold pySplitNl
    split
    · exact fun h => List.noConfusion h
    · split
      · exact fun h => List.noConfusion h
      · exact fun h => List.noConfusion h

/-- Unfolding equation of `pySplitNl` on a cons. -/
theorem pySplitNl_cons (c : Char) (rest : List Char) :
    pySplitNl (c :: rest) =
      if c = '\n' then [] :: pySplitNl rest
      else
        match pySplitNl rest with
        | [] => [[c]]
        | l :: ls => (c :: l) :: ls := by
  rfl

/-- Splitting a string with a trailing newline yields the split of the rest
followed by one empty piece. -/
theorem pySplitNl_append_newline (cs : List Char) :
    pySplitNl (cs ++ ['\n']) = pySplitNl cs ++ [[]] := by
  induction cs with
  | nil => rfl
  | cons c rest ih =>
    rw [List.cons_append, pySplitNl_cons, pySplitNl_cons, ih]
    by_cases h : c = '\n'
    · rw [if_pos h, if_pos h]
      rfl
    · rw [if_neg h, if_neg h]
      obtain ⟨l, ls, he⟩ : ∃ l ls, pySplitNl rest = l :: ls := by
        cases hh : pySplitNl rest with
        | nil => exact absurd hh (pySplitNl_ne_nil rest)
        | cons l ls => exact ⟨l, ls, rfl⟩
      rw [he]
      rfl

/-- A list whose last element is `'\n'` splits as some prefix followed by
that newline. -/
theorem exists_append_of_getLast (cs : List Char) (h : cs.getLast? = some '\n') :
    ∃ t, cs = t ++ ['\n'] := by
  induction cs with
  | nil => exact absurd h (by simp)
  | cons c rest ih =>
    cases rest with
    | nil =>
      simp only [List.getLast?_singleton, Option.some.injEq] at h
      exact ⟨[], by simp [h]⟩
    | cons d rest' =>
      rw [List.getLast?_cons_cons] at h
      obtain ⟨t, ht⟩ := ih h
      exact ⟨c :: t, by rw [List.cons_append, ← ht]⟩

/-- C10: in random mode the candidate list is the file content split on
newlines with no filtering, so a trailing newline puts the empty string
among the candidates, and a draw can select it — in which case the
extractor sends `User-Agent: ""` to the transport. -/
theorem c10_trailing_newline_empty_useragent (content : String)
    (h : content.toList.getLast? = some '\n') :
    useragentsFor "random" content = pyReadSplit content
    ∧ "" ∈ pyReadSplit content
    ∧ ∃ i, ∀ (fetch : Fetcher) (url : String),
        extract_emails fetch url (pyReadSplit content) i =
          emailsOf (fetch url [("User-Agent", "")]) := by
  obtain ⟨t, ht⟩ := exists_append_of_getLast content.toList h
  have hsplit : pySplitNl content.toList = pySplitNl t ++ [[]] := by
    rw [ht, pySplitNl_append_newline]
  have hmem : "" ∈ pyReadSplit content := by
    unfold pyReadSplit
    rw [hsplit]
    simp
  refine ⟨rfl, hmem, ?_⟩
  obtain ⟨n, hn⟩ := List.mem_iff_get.mp hmem
  refine ⟨n.val, ?_⟩
  intro fetch url
  have hch : pyChoice (pyReadSplit content) n.val = .ok "" := by
    rw [pyChoice_of_get _ _ n.isLt]
    exact congrArg Except.ok hn
  unfold extract_emails send_request
  simp only [hch]
  cases hh : fetch url [("User-Agent", "")] <;> rfl

/-- Closed instance of C10 on the file content `"ua1\n"`. -/
theorem c10_trailing_newline_empty_useragent_witness :
    ("ua1\n".toList.getLast? = some '\n')
    ∧ (useragentsFor "random" "ua1\n" = pyReadSplit "ua1\n"
       ∧ "" ∈ pyReadSplit "ua1\n"
       ∧ ∃ i, ∀ (fetch : Fetcher) (url : String),
           extract_emails fetch url (pyReadSplit "ua1\n") i =
             emailsOf (fetch url [("User-Agent", "")])) :=
  ⟨by decide, c10_trailing_newline_empty_useragent "ua1\n" (by decide)⟩
